import Mathlib

/-!
Claims-Adjudicator: verification of the claim adjudication pipeline

Shallow embedding of the core business logic of `src/processor.py`
(class `ClaimProcessor`) and of the database effects in `src/db_manager.py`
that the adjudication pipeline relies on.

Modelling conventions:
* Monetary amounts and scores are rationals (`ℚ`); Python floats are
  idealised as exact rational arithmetic.
* Dates are day numbers (`ℤ`); `datetime.strptime` differences in days
  become integer subtraction.
* Python `dict.get(k)` on an optional field is `Option`; `dict.get(k, d)`
  is `Option.getD`.  A key present with value `None` and an absent key are
  both `none`.
* Python truthiness of a string is "present and non-empty", of a number
  "present and non-zero".
* External collaborators (Gemini LLM calls, the member lookup and the
  policy-utilization query of the database) are an explicit `Ext`
  record of oracle functions threaded through the functions that call them.
* Message strings keep the source wording but numeric interpolation
  (Python f-string formatting) is abstracted away where no claim depends
  on it.
-/

namespace ClaimsAdjudicator

/-! ## Python-style primitives -/

/-- Truthiness of an optional string (`None` and `""` are falsy). -/
def strTruthy : Option String → Bool
  | none => false
  | some s => s ≠ ""

/-- Truthiness of an optional number (`None` and `0` are falsy). -/
def qTruthy : Option ℚ → Bool
  | none => false
  | some v => v ≠ 0

/-- Truthiness of an optional integer (`None` and `0` are falsy). -/
def zTruthy : Option ℤ → Bool
  | none => false
  | some v => v ≠ 0

/-- Holds when: `leadsWith n h` holds when the char list `n` starts the char list `h`. -/
def leadsWith : List Char → List Char → Bool
  | [], _ => true
  | _ :: _, [] => false
  | a :: as, b :: bs => a == b && leadsWith as bs

/-- Holds when `hasSubList n h`: `n` occurs contiguously inside `h`. -/
def hasSubList (needle : List Char) : List Char → Bool
  | [] => needle.isEmpty
  | c :: rest => leadsWith needle (c :: rest) || hasSubList needle rest

/-- Python `needle in hay` on strings. -/
def pyIn (needle hay : String) : Bool := hasSubList needle.toList hay.toList

/-- Python whitespace for `str.split()` / `str.strip()`. -/
def isPyWs (c : Char) : Bool := c == ' ' || c == '\t' || c == '\n' || c == '\r'

/-- Python `str.lower()` (character-wise; kernel-reducible). -/
def pyLower (s : String) : String := String.mk (s.toList.map Char.toLower)

/-- Python `str.strip()`. -/
def pyStrip (s : String) : String :=
  String.mk (((s.toList.dropWhile isPyWs).reverse.dropWhile isPyWs).reverse)

/-- Splitting a char list on a whitespace predicate. -/
def splitWsAux (cur : List Char) : List Char → List (List Char)
  | [] => [cur.reverse]
  | c :: rest =>
      if isPyWs c then cur.reverse :: splitWsAux [] rest
      else splitWsAux (c :: cur) rest

/-- Python `str.split()` (whitespace split, empties dropped). -/
def pySplit (s : String) : List String :=
  ((splitWsAux [] s.toList).filter fun w => ¬ w.isEmpty).map String.mk

/-- Python `str.replace(old, new)` for single characters. -/
def pyReplaceChar (s : String) (old new : Char) : String :=
  String.mk (s.toList.map fun c => if c == old then new else c)

/-- Python banker's rounding of a rational to the nearest integer
(ties to even), as used by `round`. -/
def roundHalfEven (x : ℚ) : ℤ :=
  let f := ⌊x⌋
  let frac := x - f
  if frac < 1/2 then f
  else if 1/2 < frac then f + 1
  else if f % 2 = 0 then f else f + 1

/-- Python `round(x, 2)` idealised on rationals. -/
def round2 (x : ℚ) : ℚ := (roundHalfEven (100 * x) : ℚ) / 100

/-- Whether a rational is an exact multiple of 1000
(Python `amount % 1000 == 0`). -/
def multipleOf1000 (a : ℚ) : Bool := (a / 1000).den == 1

/-! ## Data model -/

/-- An adjudication issue (`{'code': .., 'severity': .., 'message': ..}`). -/
structure Issue where
  code : String
  severity : String
  message : String
deriving DecidableEq

/-- A line item of a claim. `amount` is `none` when extraction produced
`null` (coerced to `0` where the source does so). -/
structure LineItem where
  description : String
  category : String
  amount : Option ℚ := none
  source_document : Option String := none
deriving DecidableEq

/-- Per-item coverage analysis record built by `_analyze_item_detailed`. -/
structure ItemAnalysis where
  description : String
  category : String
  claimed_amount : ℚ
  approved_amount : ℚ := 0
  rejected_amount : ℚ := 0
  copay_amount : ℚ := 0
  status : String := "rejected"
  reason : String := ""
  sub_limit_exceeded : Bool := false
deriving DecidableEq

/-- One category's entry under `coverage_details` in the policy JSON. -/
structure CoverageRule where
  covered : Bool := false
  sub_limit : Option ℚ := none
  copay_percentage : Option ℚ := none
  branded_drugs_copay : Option ℚ := none
  covered_tests : List String := []
  procedures_covered : List String := []
  covered_treatments : List String := []
  pre_authorization_required : Bool := false
deriving DecidableEq

/-- The policy configuration (the JSON object `self.policy`). -/
structure Policy where
  policy_id : Option String := none
  effective_date : Option ℤ := none
  policy_end_date : Option ℤ := none
  initial_waiting : Option ℤ := none
  consultation_fees : CoverageRule := {}
  diagnostic_tests : CoverageRule := {}
  pharmacy : CoverageRule := {}
  dental : CoverageRule := {}
  vision : CoverageRule := {}
  alternative_medicine : CoverageRule := {}
  per_claim_limit : Option ℚ := none
  annual_limit : Option ℚ := none
  exclusions : List String := []
  minimum_claim_amount : Option ℚ := none
  submission_timeline_days : Option ℤ := none
  required_document_types : Option (List String) := none
  doctor_registration_format : Option String := none
  cosmetic_keywords : Option (List String) := none
  experimental_keywords : Option (List String) := none
  high_value_threshold : Option ℚ := none
  critical_fields : Option (List String) := none
  manual_review_threshold : Option ℚ := none
  fraud_threshold : Option ℚ := none
  confidence_threshold : Option ℚ := none
  missing_field_penalty : Option ℚ := none
  warning_penalty : Option ℚ := none
  fraud_impact : Option ℚ := none
deriving DecidableEq

/-- The merged claim record as consumed by the validation steps. -/
structure ClaimData where
  claim_id : Option String := none
  patient_name : Option String := none
  treatment_date : Option ℤ := none
  claim_date : Option ℤ := none
  document_types_submitted : List String := []
  items : List LineItem := []
  total_amount : Option ℚ := none
  policy_id : Option String := none
  member_id : Option String := none
  employee_id : Option String := none
  doctor_registration : Option String := none
  doctor_name : Option String := none
  hospital_name : Option String := none
  diagnosis : Option String := none
  pre_authorization_number : Option String := none
deriving DecidableEq

/-- Parsed response of the semantic medical-necessity delegate. -/
structure NecessityAssessment where
  is_necessary : Bool
  reason : String := ""
  warnings : List String := []
deriving DecidableEq

/-- Year-to-date utilization as returned by
`DatabaseManager.get_policy_utilization`. -/
structure PolicyUtil where
  total_approved_ytd : ℚ := 0
  category_usage : List (String × ℚ) := []
deriving DecidableEq

/-- External collaborators: LLM calls and database lookups.
`necessity_result = none` models the delegate failing to produce
parseable output (the `except` branch of `_llm_medical_necessity_check`). -/
structure Ext where
  llm_test_covered : String → List String → Bool := fun _ _ => false
  necessity_result : Option NecessityAssessment := none
  get_member : String → Bool := fun _ => true
  get_policy_utilization : String → Option PolicyUtil := fun _ => none

/-- A fraud indicator. -/
structure FraudIndicator where
  type : String
  severity : String
  message : String
  score : ℚ
deriving DecidableEq

/-- Result of `detect_fraud_indicators`. -/
structure FraudResult where
  fraud_score : ℚ
  indicators : List FraudIndicator
  requires_manual_review : Bool
deriving DecidableEq

/-- Common shape of the per-step validation results (only the parts the
decision engine consumes). -/
structure StepResult where
  issues : List Issue := []
deriving DecidableEq

/-- Result of `analyze_coverage`. -/
structure CoverageAnalysis where
  item_analysis : List ItemAnalysis
  total_approved : ℚ
  total_rejected : ℚ
  total_copay : ℚ
deriving DecidableEq

/-! ## Coverage analysis (`analyze_coverage` and category checkers) -/

/-- Embeds `_is_test_covered_llm`: exact substring match against the covered-test
list, then a token match, then the LLM fallback (whose answer comes from
the `Ext` oracle; the `except` branch returning `False` is part of that
oracle's behaviour in the source). -/
def is_test_covered_llm (ext : Ext) (description : String)
    (covered_tests : List String) : Bool :=
  let desc := pyLower description
  if covered_tests.any fun t => pyIn (pyLower t) desc then true
  else if covered_tests.any
      (fun t => (pySplit (pyReplaceChar (pyLower t) '-' ' ')).all fun tok => pyIn tok desc) then
    true
  else ext.llm_test_covered description covered_tests

/-- Embeds `_check_consultation_coverage`. -/
def check_consultation_coverage (p : Policy) (item : LineItem)
    (result : ItemAnalysis) : ItemAnalysis :=
  let policy := p.consultation_fees
  let amount := item.amount.getD 0
  if ¬ policy.covered then
    { result with rejected_amount := amount, reason := "Consultation not covered" }
  else
    let sub_limit := policy.sub_limit.getD 0
    let copay_pct := policy.copay_percentage.getD 0
    if sub_limit ≠ 0 ∧ amount > sub_limit then
      let copay := sub_limit * copay_pct / 100
      { result with
          approved_amount := sub_limit - copay
          copay_amount := copay
          rejected_amount := amount - sub_limit
          status := "partial"
          sub_limit_exceeded := true
          reason := "Partial approval: sub-limit covered, excess rejected, copay applied" }
    else
      let copay := amount * copay_pct / 100
      { result with
          approved_amount := amount - copay
          copay_amount := copay
          status := "approved"
          reason := "Approved with copay" }

/-- Embeds `_check_diagnostic_coverage`. -/
def check_diagnostic_coverage (ext : Ext) (p : Policy) (item : LineItem)
    (result : ItemAnalysis) : ItemAnalysis :=
  let policy := p.diagnostic_tests
  let amount := item.amount.getD 0
  let description := pyLower item.description
  if ¬ policy.covered then
    { result with rejected_amount := amount, reason := "Diagnostics not covered" }
  else if ¬ is_test_covered_llm ext description policy.covered_tests then
    { result with rejected_amount := amount, reason := "Test not in covered list" }
  else
    let sub_limit := policy.sub_limit.getD 0
    if sub_limit ≠ 0 ∧ amount > sub_limit then
      { result with
          rejected_amount := amount
          reason := "Exceeds diagnostic limit"
          sub_limit_exceeded := true }
    else
      { result with
          approved_amount := amount
          status := "approved"
          reason := "Covered diagnostic test" }

/-- Embeds `_check_pharmacy_coverage`. -/
def check_pharmacy_coverage (p : Policy) (item : LineItem)
    (result : ItemAnalysis) : ItemAnalysis :=
  let policy := p.pharmacy
  let amount := item.amount.getD 0
  let description := pyLower item.description
  if ¬ policy.covered then
    { result with rejected_amount := amount, reason := "Pharmacy not covered" }
  else
    let sub_limit := policy.sub_limit.getD 0
    if sub_limit ≠ 0 ∧ amount > sub_limit then
      { result with
          rejected_amount := amount
          reason := "Exceeds pharmacy limit"
          sub_limit_exceeded := true }
    else if pyIn "generic" description then
      { result with
          approved_amount := amount
          status := "approved"
          reason := "Generic drug - 100% covered" }
    else
      let copay_pct := policy.branded_drugs_copay.getD 0
      let copay := amount * copay_pct / 100
      { result with
          approved_amount := amount - copay
          copay_amount := copay
          status := "approved"
          reason := "Branded drug - copay" }

/-- Embeds `_check_dental_coverage`. -/
def check_dental_coverage (p : Policy) (item : LineItem)
    (result : ItemAnalysis) : ItemAnalysis :=
  let policy := p.dental
  let amount := item.amount.getD 0
  let description := pyLower item.description
  if ¬ policy.covered then
    { result with rejected_amount := amount, reason := "Dental not covered" }
  else
    let sub_limit := policy.sub_limit.getD 0
    if sub_limit ≠ 0 ∧ amount > sub_limit then
      { result with
          rejected_amount := amount
          reason := "Exceeds dental limit"
          sub_limit_exceeded := true }
    else if ¬ policy.procedures_covered.any (fun proc => pyIn (pyLower proc) description) then
      { result with rejected_amount := amount, reason := "Dental procedure not covered" }
    else
      { result with
          approved_amount := amount
          status := "approved"
          reason := "Covered dental procedure" }

/-- Embeds `_check_vision_coverage`. -/
def check_vision_coverage (p : Policy) (item : LineItem)
    (result : ItemAnalysis) : ItemAnalysis :=
  let policy := p.vision
  let amount := item.amount.getD 0
  if ¬ policy.covered then
    { result with rejected_amount := amount, reason := "Vision not covered" }
  else
    let sub_limit := policy.sub_limit.getD 0
    if sub_limit ≠ 0 ∧ amount > sub_limit then
      { result with
          rejected_amount := amount
          reason := "Exceeds vision limit"
          sub_limit_exceeded := true }
    else
      { result with
          approved_amount := amount
          status := "approved"
          reason := "Covered vision service" }

/-- Embeds `_check_alternative_coverage`. -/
def check_alternative_coverage (p : Policy) (item : LineItem)
    (result : ItemAnalysis) : ItemAnalysis :=
  let policy := p.alternative_medicine
  let amount := item.amount.getD 0
  let description := pyLower item.description
  if ¬ policy.covered then
    { result with rejected_amount := amount, reason := "Alternative medicine not covered" }
  else if ¬ policy.covered_treatments.any
      (fun treatment => pyIn (pyLower treatment) description) then
    { result with rejected_amount := amount, reason := "Treatment type not covered" }
  else
    let sub_limit := policy.sub_limit.getD 0
    if sub_limit ≠ 0 ∧ amount > sub_limit then
      { result with
          rejected_amount := amount
          reason := "Exceeds alternative medicine limit"
          sub_limit_exceeded := true }
    else
      { result with
          approved_amount := amount
          status := "approved"
          reason := "Covered alternative medicine" }

/-- Embeds `_analyze_item_detailed`: exclusion check (first match wins), then
dispatch by category. -/
def analyze_item_detailed (ext : Ext) (p : Policy) (item : LineItem) : ItemAnalysis :=
  let amount := item.amount.getD 0
  let description := pyLower item.description
  let result : ItemAnalysis :=
    { description := item.description
      category := item.category
      claimed_amount := amount }
  match p.exclusions.find? (fun exclusion => pyIn (pyLower exclusion) description) with
  | some exclusion =>
      { result with rejected_amount := amount, reason := "Excluded: " ++ exclusion }
  | none =>
      if item.category = "consultation" then check_consultation_coverage p item result
      else if item.category = "diagnostic" then check_diagnostic_coverage ext p item result
      else if item.category = "pharmacy" then check_pharmacy_coverage p item result
      else if item.category = "dental" then check_dental_coverage p item result
      else if item.category = "vision" then check_vision_coverage p item result
      else if item.category = "alternative_medicine" then
        check_alternative_coverage p item result
      else { result with rejected_amount := amount, reason := "Unknown category" }

/-- Dosage-instruction phrases used to skip prescription items. -/
def prescription_indicators : List String :=
  ["after food", "before food", "at bedtime", "twice daily",
   "thrice daily", "1-0-1", "0-0-1", "1-0-0", "for 5 days",
   "for 3 days", "for 7 days", "tsp", "teaspoon"]

/-- Lab parameter names used to skip lab-result items. -/
def lab_indicators : List String :=
  ["hemoglobin", "wbc count", "rbc count", "platelet",
   "neutrophils", "lymphocytes", "monocytes", "eosinophils",
   "basophils", "hematocrit", "pcv", "mcv", "mch", "mchc"]

/-- The billable-item filter at the head of `analyze_coverage`'s loop:
`True` means the item is skipped (`continue`). -/
def skip_item (item : LineItem) : Bool :=
  let claimed_amount := item.amount.getD 0
  let description := pyLower item.description
  item.amount.isNone || claimed_amount ≤ 0
    || (prescription_indicators.any (fun ind => pyIn ind description)
          && claimed_amount == 0)
    || (lab_indicators.any (fun ind => pyIn ind description) && claimed_amount == 0)

/-- Embeds `analyze_coverage`: filter non-billable items, analyze the rest and
accumulate the three totals. -/
def analyze_coverage (ext : Ext) (p : Policy) (items : List LineItem) : CoverageAnalysis :=
  let analyzed := (items.filter (fun item => ¬ skip_item item)).map
    (analyze_item_detailed ext p)
  { item_analysis := analyzed
    total_approved := (analyzed.map (·.approved_amount)).sum
    total_rejected := (analyzed.map (·.rejected_amount)).sum
    total_copay := (analyzed.map (·.copay_amount)).sum }

/-! ## Step 1: basic eligibility (`check_basic_eligibility`) -/

/-- Embeds `check_basic_eligibility`: policy activity, expiry, waiting period and
member verification.  Dates are day numbers; a missing `effective_date`
(fatal `strptime(None)` in the source) is modelled with `getD 0` and never
exercised by the theorems below. -/
def check_basic_eligibility (ext : Ext) (p : Policy) (claim_data : ClaimData) :
    StepResult :=
  let policy_start := p.effective_date.getD 0
  let treatment_date := (claim_data.treatment_date.orElse fun _ =>
    claim_data.claim_date).getD 0
  let issues₁ : List Issue :=
    if ¬ (policy_start ≤ treatment_date) then
      [{ code := "POLICY_INACTIVE", severity := "critical",
         message := "Policy not active on treatment date" }]
    else []
  let issues₂ : List Issue :=
    match p.policy_end_date with
    | some policy_end =>
        if treatment_date > policy_end then
          [{ code := "POLICY_EXPIRED", severity := "critical",
             message := "Policy expired before treatment date" }]
        else []
    | none => []
  let waiting_period_days := p.initial_waiting.getD 0
  let days_since_policy_start := treatment_date - policy_start
  let issues₃ : List Issue :=
    if days_since_policy_start < waiting_period_days then
      [{ code := "WAITING_PERIOD", severity := "critical",
         message := "Treatment during waiting period" }]
    else []
  let issues₄ : List Issue :=
    match claim_data.member_id with
    | some member_id =>
        if member_id ≠ "" ∧ ¬ ext.get_member member_id then
          [{ code := "MEMBER_NOT_COVERED", severity := "critical",
             message := "Member not found in database" }]
        else []
    | none => []
  { issues := issues₁ ++ issues₂ ++ issues₃ ++ issues₄ }

/-! ## Step 2: document validation (`validate_documents`) -/

/-- Document-type normalisation: lowercase, then `_` and `-` become spaces. -/
def normDocType (s : String) : String :=
  pyReplaceChar (pyReplaceChar (pyLower s) '_' ' ') '-' ' '

/-- The default `doctor_registration_format` pattern `^[A-Z]{2}/\d+/\d{4}$`,
implemented directly. -/
def matchesDefaultRegFormat (s : String) : Bool :=
  match s.toList with
  | a :: b :: '/' :: rest =>
      (('A' ≤ a && a ≤ 'Z') && ('A' ≤ b && b ≤ 'Z')) &&
      (let digits := rest.takeWhile Char.isDigit
       let rest2 := rest.dropWhile Char.isDigit
       decide (1 ≤ digits.length) &&
       match rest2 with
       | '/' :: d1 :: d2 :: d3 :: d4 :: [] => [d1, d2, d3, d4].all Char.isDigit
       | _ => false)
  | _ => false

/-- Embeds `_validate_doctor_registration`: the source compiles the
policy-configured regex; only the default pattern is given concrete
semantics here, a custom pattern is out of the modelled fragment and
treated as matching nothing. -/
def validate_doctor_registration (p : Policy) (reg_number : String) : Bool :=
  match p.doctor_registration_format with
  | none => matchesDefaultRegFormat reg_number
  | some _ => false

/-- Embeds `validate_documents`. -/
def validate_documents (p : Policy) (claim_data : ClaimData) : StepResult :=
  let required_doc_types :=
    p.required_document_types.getD ["prescription", "medical_bill"]
  let submitted_normalized := claim_data.document_types_submitted.map normDocType
  let issues₁ : List Issue :=
    (required_doc_types.filter fun req_type =>
        ¬ submitted_normalized.contains (normDocType req_type)).map
      fun req_type =>
        { code := "MISSING_DOCUMENT_TYPE", severity := "critical",
          message := "Required document type not uploaded: " ++ req_type }
  let essential_missing : List (Bool × String) :=
    [(strTruthy claim_data.patient_name, "Patient Name"),
     (zTruthy claim_data.treatment_date
        || claim_data.treatment_date == some 0, "Treatment Date"),
     (qTruthy claim_data.total_amount, "Total Amount"),
     (!claim_data.items.isEmpty, "Line Items")]
  let issues₂ : List Issue :=
    (essential_missing.filter fun pr => ¬ pr.1).map fun pr =>
      { code := "MISSING_REQUIRED_FIELD", severity := "critical",
        message := "Required field missing: " ++ pr.2 }
  let issues₃ : List Issue :=
    match claim_data.doctor_registration with
    | some reg =>
        if reg ≠ "" then
          if ¬ validate_doctor_registration p reg then
            [{ code := "DOCTOR_REG_INVALID", severity := "warning",
               message := "Invalid doctor registration format: " ++ reg }]
          else []
        else
          [{ code := "DOCTOR_REG_MISSING", severity := "warning",
             message := "Doctor registration number not found in documents" }]
    | none =>
        [{ code := "DOCTOR_REG_MISSING", severity := "warning",
           message := "Doctor registration number not found in documents" }]
  let issues₄ : List Issue :=
    match claim_data.claim_date, claim_data.treatment_date with
    | some c_date, some t_date =>
        if c_date < t_date then
          [{ code := "DATE_MISMATCH", severity := "warning",
             message := "Claim date is before treatment date" }]
        else []
    | _, _ => []
  let patient_name := pyStrip (claim_data.patient_name.getD "")
  let issues₅ : List Issue :=
    if patient_name.length < 3 then
      [{ code := "PATIENT_NAME_INCOMPLETE", severity := "warning",
         message := "Patient name appears incomplete or invalid" }]
    else []
  let issues₆ : List Issue :=
    if ¬ strTruthy claim_data.doctor_name then
      [{ code := "DOCTOR_NAME_MISSING", severity := "warning",
         message := "Doctor name not found in documents" }]
    else []
  let issues₇ : List Issue :=
    if ¬ strTruthy claim_data.hospital_name then
      [{ code := "HOSPITAL_NAME_MISSING", severity := "warning",
         message := "Hospital/clinic name not found in documents" }]
    else []
  { issues := issues₁ ++ issues₂ ++ issues₃ ++ issues₄ ++ issues₅ ++ issues₆ ++ issues₇ }

/-! ## Step 3: coverage verification (`verify_coverage`) -/

/-- Embeds `_is_category_covered`. -/
def is_category_covered (p : Policy) (category : String) : Bool :=
  if category = "consultation" then p.consultation_fees.covered
  else if category = "diagnostic" then p.diagnostic_tests.covered
  else if category = "pharmacy" then p.pharmacy.covered
  else if category = "dental" then p.dental.covered
  else if category = "vision" then p.vision.covered
  else if category = "alternative_medicine" then p.alternative_medicine.covered
  else false

/-- Embeds `_check_pre_authorization`. -/
def check_pre_authorization (p : Policy) (claim_data : ClaimData) : List Issue :=
  let requires_pre_auth_flag := p.diagnostic_tests.pre_authorization_required
  let pre_auth_keywords := ["mri", "ct", "ct scan", "mri scan"]
  (claim_data.items.filter fun item =>
      let desc := pyLower item.description
      pre_auth_keywords.any (fun k => pyIn k desc) &&
        (requires_pre_auth_flag &&
          ¬ strTruthy claim_data.pre_authorization_number)).map
    fun item =>
      { code := "PRE_AUTH_MISSING", severity := "critical",
        message := "Pre-authorization required for: " ++ item.description }

/-- Embeds `verify_coverage`. -/
def verify_coverage (p : Policy) (claim_data : ClaimData) : StepResult :=
  let diagnosis := pyLower (claim_data.diagnosis.getD "")
  let per_item : List Issue := claim_data.items.flatMap fun item =>
    let description := pyLower item.description
    let exclusion_issues : List Issue :=
      (p.exclusions.filter fun exclusion =>
          pyIn (pyLower exclusion) description || pyIn (pyLower exclusion) diagnosis).map
        fun exclusion =>
          { code := "EXCLUDED_CONDITION", severity := "critical",
            message := "Service excluded: " ++ exclusion }
    let category_issues : List Issue :=
      if ¬ is_category_covered p item.category then
        [{ code := "SERVICE_NOT_COVERED", severity := "critical",
           message := "Service category not covered: " ++ item.category }]
      else []
    exclusion_issues ++ category_issues
  { issues := per_item ++ check_pre_authorization p claim_data }

/-! ## Step 4: limit validation (`validate_limits`) -/

/-- Embeds `_get_category_config`. -/
def get_category_config (p : Policy) (category : String) : CoverageRule :=
  if category = "consultation" then p.consultation_fees
  else if category = "diagnostic" then p.diagnostic_tests
  else if category = "pharmacy" then p.pharmacy
  else if category = "dental" then p.dental
  else if category = "vision" then p.vision
  else if category = "alternative_medicine" then p.alternative_medicine
  else {}

/-- Embeds `_check_sub_limits` (warnings only). -/
def check_sub_limits (ext : Ext) (p : Policy) (claim_data : ClaimData)
    (coverage_analysis : CoverageAnalysis) : List Issue :=
  let category_usage : List (String × ℚ) :=
    match claim_data.policy_id with
    | some policy_id =>
        if policy_id ≠ "" then
          match ext.get_policy_utilization policy_id with
          | some util => util.category_usage
          | none => []
        else []
    | none => []
  (coverage_analysis.item_analysis.filter fun item_analysis =>
      let sub_limit := (get_category_config p item_analysis.category).sub_limit.getD 0
      sub_limit ≠ 0 &&
        let ytd_used := ((category_usage.find? fun pr =>
          pr.1 = item_analysis.category).map Prod.snd).getD 0
        item_analysis.claimed_amount > sub_limit - ytd_used).map
    fun item_analysis =>
      { code := "SUB_LIMIT_EXCEEDED", severity := "warning",
        message := "Category sub-limit exceeded for: " ++ item_analysis.description }

/-- Embeds `validate_limits`. -/
def validate_limits (ext : Ext) (p : Policy) (claim_data : ClaimData)
    (coverage_analysis : CoverageAnalysis) : StepResult :=
  let total_claimed := claim_data.total_amount.getD 0
  let min_amount := p.minimum_claim_amount.getD 0
  let issues₁ : List Issue :=
    if min_amount ≠ 0 ∧ total_claimed < min_amount then
      [{ code := "BELOW_MIN_AMOUNT", severity := "critical",
         message := "Claim amount below minimum" }]
    else []
  let issues₂ : List Issue :=
    if qTruthy p.per_claim_limit ∧ total_claimed > p.per_claim_limit.getD 0 then
      [{ code := "PER_CLAIM_EXCEEDED", severity := "critical",
         message := "Claim amount exceeds per-claim limit" }]
    else []
  let claims_ytd : ℚ :=
    match claim_data.policy_id with
    | some policy_id =>
        if policy_id ≠ "" then
          match ext.get_policy_utilization policy_id with
          | some util => util.total_approved_ytd
          | none => 0
        else 0
    | none => 0
  let issues₃ : List Issue :=
    if qTruthy p.annual_limit ∧ claims_ytd + total_claimed > p.annual_limit.getD 0 then
      [{ code := "ANNUAL_LIMIT_EXCEEDED", severity := "critical",
         message := "Total claims would exceed annual limit" }]
    else []
  let issues₄ := check_sub_limits ext p claim_data coverage_analysis
  let issues₅ : List Issue :=
    if zTruthy p.submission_timeline_days then
      let treatment_date := (claim_data.treatment_date.orElse fun _ =>
        claim_data.claim_date).getD 0
      let claim_date := claim_data.claim_date.getD 0
      let days_diff := claim_date - treatment_date
      if days_diff > p.submission_timeline_days.getD 0 then
        [{ code := "LATE_SUBMISSION", severity := "critical",
           message := "Claim submitted after treatment beyond the day limit" }]
      else []
    else []
  { issues := issues₁ ++ issues₂ ++ issues₃ ++ issues₄ ++ issues₅ }

/-! ## Step 5: medical necessity (`review_medical_necessity`) -/

/-- Full result of `review_medical_necessity` (the decision engine only
reads `issues`, callers also read `is_necessary`). -/
structure NecessityResult where
  is_necessary : Bool
  issues : List Issue
deriving DecidableEq

/-- Embeds `_llm_medical_necessity_check`: the delegate's parsed response, or the
fail-open default when the response cannot be parsed
(`ext.necessity_result = none`). -/
def llm_medical_necessity_check (ext : Ext) : NecessityAssessment :=
  match ext.necessity_result with
  | some assessment => assessment
  | none =>
      { is_necessary := true
        reason := "Could not parse LLM response, defaulting to approval"
        warnings := [] }

/-- The missing-diagnosis warning of `review_medical_necessity`. -/
def missing_diagnosis_issues (claim_data : ClaimData) : List Issue :=
  if claim_data.diagnosis.getD "" = "" then
    [{ code := "NOT_MEDICALLY_NECESSARY", severity := "warning",
       message := "No diagnosis provided to justify treatment" }]
  else []

/-- The cosmetic-keyword screening of `review_medical_necessity`. -/
def cosmetic_issues (p : Policy) (claim_data : ClaimData) : List Issue :=
  let cosmetic_keywords := p.cosmetic_keywords.getD
    ["whitening", "bleaching", "cosmetic", "aesthetic", "beauty"]
  (claim_data.items.filter fun item =>
      cosmetic_keywords.any fun keyword => pyIn keyword (pyLower item.description)).map
    fun item =>
      { code := "COSMETIC_PROCEDURE", severity := "critical",
        message := "Cosmetic procedure not covered: " ++ item.description }

/-- The experimental-keyword screening of `review_medical_necessity`. -/
def experimental_issues (p : Policy) (claim_data : ClaimData) : List Issue :=
  let experimental_keywords := p.experimental_keywords.getD
    ["experimental", "investigational", "trial", "unproven"]
  (claim_data.items.filter fun item =>
      experimental_keywords.any fun keyword =>
        pyIn keyword (pyLower item.description)).map
    fun item =>
      { code := "EXPERIMENTAL_TREATMENT", severity := "critical",
        message := "Experimental treatment not covered: " ++ item.description }

/-- Embeds `review_medical_necessity`. -/
def review_medical_necessity (ext : Ext) (p : Policy) (claim_data : ClaimData) :
    NecessityResult :=
  let diagnosis := claim_data.diagnosis.getD ""
  let items := claim_data.items
  let keyword_necessary :=
    (cosmetic_issues p claim_data).isEmpty && (experimental_issues p claim_data).isEmpty
  if diagnosis ≠ "" ∧ ¬ items.isEmpty then
    let llm_assessment := llm_medical_necessity_check ext
    let llm_issues : List Issue :=
      if ¬ llm_assessment.is_necessary then
        [{ code := "NOT_MEDICALLY_NECESSARY", severity := "critical",
           message := llm_assessment.reason }]
      else []
    let llm_warnings : List Issue := llm_assessment.warnings.map fun warning =>
      { code := "MEDICAL_REVIEW_WARNING", severity := "warning",
        message := warning }
    { is_necessary := keyword_necessary && llm_assessment.is_necessary
      issues := missing_diagnosis_issues claim_data ++ cosmetic_issues p claim_data
        ++ experimental_issues p claim_data ++ llm_issues ++ llm_warnings }
  else
    { is_necessary := keyword_necessary
      issues := missing_diagnosis_issues claim_data ++ cosmetic_issues p claim_data
        ++ experimental_issues p claim_data }

/-! ## Fraud detection (`detect_fraud_indicators`) -/

/-- Truthiness lookup of a claim field by its Python key, as done for the
configurable `critical_fields` list; unknown keys behave like missing
dictionary entries. -/
def claim_field_truthy (claim_data : ClaimData) : String → Bool
  | "doctor_registration" => strTruthy claim_data.doctor_registration
  | "hospital_name" => strTruthy claim_data.hospital_name
  | "doctor_name" => strTruthy claim_data.doctor_name
  | "diagnosis" => strTruthy claim_data.diagnosis
  | "patient_name" => strTruthy claim_data.patient_name
  | "pre_authorization_number" => strTruthy claim_data.pre_authorization_number
  | _ => false

/-- Embeds `detect_fraud_indicators`. -/
def detect_fraud_indicators (p : Policy) (claim_data : ClaimData) : FraudResult :=
  let high_value_threshold := p.high_value_threshold.getD 25000
  let total_amount := claim_data.total_amount.getD 0
  let high_value : List FraudIndicator :=
    if total_amount > high_value_threshold then
      [{ type := "HIGH_VALUE", severity := "medium",
         message := "High-value claim",
         score := min (3/10) (total_amount / high_value_threshold * (2/10)) }]
    else []
  let critical_fields := p.critical_fields.getD ["doctor_registration", "hospital_name"]
  let missing_info : List FraudIndicator :=
    (critical_fields.filter fun field => ¬ claim_field_truthy claim_data field).map
      fun field =>
        { type := "MISSING_INFO", severity := "medium",
          message := "Missing critical field: " ++ field, score := 2/10 }
  let items := claim_data.items
  let round_numbers :=
    (items.filter fun item => multipleOf1000 (item.amount.getD 0)).length
  let suspicious : List FraudIndicator :=
    if items.length > 2 ∧ round_numbers = items.length then
      [{ type := "SUSPICIOUS_AMOUNTS", severity := "low",
         message := "All amounts are round numbers", score := 1/10 }]
    else []
  let indicators := high_value ++ missing_info ++ suspicious
  let fraud_score := (indicators.map (·.score)).sum
  let fraud_threshold := p.manual_review_threshold.getD (1/2)
  { fraud_score := min fraud_score 1
    indicators := indicators
    requires_manual_review := fraud_score > fraud_threshold }

/-! ## Decision engine (`make_adjudication_decision`) -/

/-- Embeds `_calculate_comprehensive_confidence`. -/
def calculate_comprehensive_confidence (p : Policy) (claim_data : ClaimData)
    (warnings : List Issue) (fraud_detection : FraudResult) : ℚ :=
  let missing_field_penalty := p.missing_field_penalty.getD (1/10)
  let s₁ : ℚ := 1
  let s₂ := if ¬ strTruthy claim_data.doctor_registration then
    s₁ - missing_field_penalty else s₁
  let s₃ := if ¬ strTruthy claim_data.hospital_name then
    s₂ - missing_field_penalty / 2 else s₂
  let s₄ := if ¬ strTruthy claim_data.doctor_name then
    s₃ - missing_field_penalty / 2 else s₃
  let s₅ := if ¬ strTruthy claim_data.diagnosis then
    s₄ - missing_field_penalty else s₄
  let warning_penalty := p.warning_penalty.getD (1/20)
  let s₆ := s₅ - warnings.length * warning_penalty
  let fraud_impact := p.fraud_impact.getD (3/10)
  let s₇ := s₆ - fraud_detection.fraud_score * fraud_impact
  max 0 (min 1 s₇)

/-- An item of the final `item_breakdown`, after `_finalize_item_breakdown`
rewrote statuses for the final decision. -/
structure FinalItem where
  description : String
  category : String
  claimed_amount : ℚ
  approved_amount : ℚ
  rejected_amount : ℚ
  copay_amount : ℚ
  status : String
  reason : String
  sub_limit_exceeded : Bool
  final_status : String := ""
  final_approved_amount : ℚ := 0
  final_reason : String := ""
  coverage_eligible : Option Bool := none
  coverage_analysis_note : Option String := none
deriving DecidableEq

/-- Copy of an `ItemAnalysis` into a `FinalItem` (the `item.copy()`). -/
def FinalItem.ofAnalysis (item : ItemAnalysis) : FinalItem :=
  { description := item.description
    category := item.category
    claimed_amount := item.claimed_amount
    approved_amount := item.approved_amount
    rejected_amount := item.rejected_amount
    copay_amount := item.copay_amount
    status := item.status
    reason := item.reason
    sub_limit_exceeded := item.sub_limit_exceeded }

/-- The per-item body of `_finalize_item_breakdown`'s loop. -/
def finalize_item (final_decision : String) (rejection_reason : String)
    (item : ItemAnalysis) : FinalItem :=
    let item_copy := FinalItem.ofAnalysis item
    if final_decision = "REJECTED" then
      let claimed := item.claimed_amount
      { item_copy with
          status := "rejected"
          approved_amount := 0
          copay_amount := 0
          rejected_amount := claimed
          final_status := "rejected"
          final_approved_amount := 0
          final_reason := "Claim rejected: " ++ rejection_reason
          coverage_eligible := some false
          coverage_analysis_note := some "Not payable due to claim-level rejection" }
    else if final_decision = "MANUAL_REVIEW" then
      { item_copy with
          final_status := "pending_review"
          final_approved_amount := 0
          final_reason := "Awaiting manual review"
          coverage_eligible := some (item.status == "approved")
          coverage_analysis_note := some item.reason }
    else if final_decision = "PARTIAL" then
      { item_copy with
          final_status := item.status
          final_approved_amount := item.approved_amount
          final_reason := item.reason }
    else if final_decision = "APPROVED" then
      { item_copy with
          final_status := item.status
          final_approved_amount := item.approved_amount
          final_reason := item.reason }
    else item_copy

/-- Embeds `_finalize_item_breakdown`. -/
def finalize_item_breakdown (item_analysis : List ItemAnalysis)
    (final_decision : String) (rejection_reason : String) : List FinalItem :=
  item_analysis.map (finalize_item final_decision rejection_reason)

/-- The decision record returned to the caller (`_create_decision_output`;
the free-text `reasoning` object and timestamps are not modelled). -/
structure Decision where
  claim_id : String := "N/A"
  decision : String := ""
  approved_amount : ℚ := 0
  rejection_reasons : List String := []
  confidence_score : ℚ := 0
  next_steps : String := ""
  patient_name : String := "N/A"
  reason : String := ""
  total_claimed : ℚ := 0
  deductions_copay : ℚ := 0
  deductions_rejected_items : ℚ := 0
  patient_payable : ℚ := 0
  insurance_payable : ℚ := 0
  critical_issues : List Issue := []
  warnings : List Issue := []
  item_breakdown : List FinalItem := []
  fraud_indicators : List FraudIndicator := []
deriving DecidableEq

/-- Embeds `_create_decision_output` (`self.fraud_indicators` — the shared field
holding the last detector run — is passed explicitly). -/
def create_decision_output (claim_data : ClaimData)
    (fraud_indicators : List FraudIndicator) (decision : String)
    (approved_amount : ℚ) (critical_issues : List Issue) (warnings : List Issue)
    (confidence : ℚ) (coverage_analysis : CoverageAnalysis)
    (reason : String) (next_steps : String) : Decision :=
  let rejection_reasons :=
    if decision = "REJECTED" then (critical_issues.map (·.code)).dedup else []
  let total_claimed := claim_data.total_amount.getD 0
  let total_copay := coverage_analysis.total_copay
  let total_rejected_items := coverage_analysis.total_rejected
  let item_breakdown :=
    finalize_item_breakdown coverage_analysis.item_analysis decision reason
  { claim_id := claim_data.claim_id.getD "N/A"
    decision := decision
    approved_amount := round2 approved_amount
    rejection_reasons := rejection_reasons
    confidence_score := round2 confidence
    next_steps := next_steps
    patient_name := claim_data.patient_name.getD "N/A"
    reason := reason
    total_claimed := round2 total_claimed
    deductions_copay := round2 total_copay
    deductions_rejected_items := round2 total_rejected_items
    patient_payable := round2 (total_rejected_items + total_copay)
    insurance_payable := round2 approved_amount
    critical_issues := critical_issues
    warnings := warnings
    item_breakdown := item_breakdown
    fraud_indicators := fraud_indicators }

/-- Embeds `_get_rejection_next_steps` (the lookup table collapsed to the
fallback text where no claim depends on the entry). -/
def get_rejection_next_steps (rejection_code : String) : String :=
  if rejection_code = "WAITING_PERIOD" then
    "This claim is within the waiting period. You can resubmit after the waiting period ends."
  else "Please contact customer support for assistance."

/-- The hard-rejection code set of `make_adjudication_decision`
(`rejection_codes` dict keys). -/
def rejection_codes : List String :=
  ["POLICY_INACTIVE", "POLICY_EXPIRED", "WAITING_PERIOD", "MEMBER_NOT_COVERED",
   "EXCLUDED_CONDITION", "COSMETIC_PROCEDURE", "EXPERIMENTAL_TREATMENT",
   "LATE_SUBMISSION"]

/-- Issue accumulation across the five step results, in pipeline order. -/
def collect_issues (eligibility doc_validation coverage_verification : StepResult)
    (limit_validation medical_necessity : StepResult) : List Issue :=
  eligibility.issues ++ doc_validation.issues ++ coverage_verification.issues
    ++ limit_validation.issues ++ medical_necessity.issues

/-- The accumulated critical issues. -/
def collect_critical (eligibility doc_validation coverage_verification : StepResult)
    (limit_validation medical_necessity : StepResult) : List Issue :=
  (collect_issues eligibility doc_validation coverage_verification limit_validation
    medical_necessity).filter fun issue => issue.severity = "critical"

/-- The accumulated warnings. -/
def collect_warnings (eligibility doc_validation coverage_verification : StepResult)
    (limit_validation medical_necessity : StepResult) : List Issue :=
  (collect_issues eligibility doc_validation coverage_verification limit_validation
    medical_necessity).filter fun issue => issue.severity = "warning"

/-- The manual-review trigger list of `make_adjudication_decision`
(fraud score over threshold, high value, low confidence, suspicious
indicator types). -/
def manual_review_reasons (p : Policy) (claim_data : ClaimData)
    (confidence_score : ℚ) (fraud_detection : FraudResult) : List String :=
  let high_value_threshold := p.high_value_threshold.getD 25000
  let fraud_threshold := p.fraud_threshold.getD (7/10)
  let confidence_threshold := p.confidence_threshold.getD (7/10)
  let total_claimed := claim_data.total_amount.getD 0
  (if fraud_detection.fraud_score > fraud_threshold then
    ["High fraud risk detected"] else []) ++
  (if total_claimed > high_value_threshold then ["High-value claim"] else []) ++
  (if confidence_score < confidence_threshold then ["Low confidence score"] else []) ++
  (if ¬ fraud_detection.indicators.isEmpty ∧
      fraud_detection.indicators.any
        (fun i => i.type = "DOCUMENT_MODIFIED" ∨ i.type = "UNUSUAL_PATTERN") then
    ["Suspicious patterns detected"] else [])

/-- Embeds `make_adjudication_decision`. -/
def make_adjudication_decision (p : Policy)
    (fraud_indicators : List FraudIndicator) (claim_data : ClaimData)
    (eligibility doc_validation coverage_verification limit_validation : StepResult)
    (medical_necessity : StepResult) (coverage_analysis : CoverageAnalysis)
    (fraud_detection : FraudResult) : Decision :=
  let all_critical_issues := collect_critical eligibility doc_validation
    coverage_verification limit_validation medical_necessity
  let all_warnings := collect_warnings eligibility doc_validation
    coverage_verification limit_validation medical_necessity
  let confidence_score :=
    calculate_comprehensive_confidence p claim_data all_warnings fraud_detection
  let total_claimed := claim_data.total_amount.getD 0
  let total_approved := coverage_analysis.total_approved
  let total_rejected := coverage_analysis.total_rejected
  let total_copay := coverage_analysis.total_copay
  let review_reasons := manual_review_reasons p claim_data confidence_score fraud_detection
  match all_critical_issues.filter fun i => rejection_codes.contains i.code with
  | first_hard :: _ =>
      create_decision_output claim_data fraud_indicators "REJECTED" 0
        all_critical_issues all_warnings confidence_score coverage_analysis
        first_hard.message (get_rejection_next_steps first_hard.code)
  | [] =>
  if ¬ review_reasons.isEmpty then
    create_decision_output claim_data fraud_indicators "MANUAL_REVIEW" total_approved
      all_critical_issues all_warnings confidence_score coverage_analysis
      ("Requires manual review: " ++ String.intercalate "; " review_reasons)
      "Your claim has been escalated for manual review. Our team will contact you within 3-5 business days."
  else if ¬ (all_critical_issues.filter fun i =>
      i.code = "MISSING_DOCUMENT_TYPE" ∨ i.code = "MISSING_REQUIRED_FIELD").isEmpty then
    create_decision_output claim_data fraud_indicators "REJECTED" 0
      all_critical_issues all_warnings confidence_score coverage_analysis
      "Essential documents or information missing"
      "Please upload all required documents and ensure patient details are complete."
  else if total_approved = 0 ∧ total_claimed > 0 then
    create_decision_output claim_data fraud_indicators "REJECTED" 0
      all_critical_issues all_warnings confidence_score coverage_analysis
      "No items covered under policy"
      "The services claimed are not covered under your policy. Please review your coverage details."
  else
    let sub_limit_items := coverage_analysis.item_analysis.filter (·.sub_limit_exceeded)
    let limit_exceeded_issues := all_critical_issues.filter fun i =>
      i.code = "ANNUAL_LIMIT_EXCEEDED" ∨ i.code = "PER_CLAIM_EXCEEDED"
    let cap := ¬ limit_exceeded_issues.isEmpty ∧ qTruthy p.per_claim_limit ∧
      total_approved > p.per_claim_limit.getD 0
    let is_partial := total_rejected > 0 ∨ total_copay > 0 ∨
      ¬ sub_limit_items.isEmpty ∨ cap
    let total_approved₂ := if cap then p.per_claim_limit.getD 0 else total_approved
    if is_partial ∧ total_approved₂ > 0 then
      create_decision_output claim_data fraud_indicators "PARTIAL" total_approved₂
        all_critical_issues all_warnings confidence_score coverage_analysis
        "Partially approved"
        "Approved amount will be processed within 7-10 business days."
    else if total_approved₂ > 0 then
      create_decision_output claim_data fraud_indicators "APPROVED" total_approved₂
        all_critical_issues all_warnings confidence_score coverage_analysis
        "Claim fully approved as per policy coverage"
        "Your claim has been approved. Payment will be processed within 7-10 business days."
    else
      create_decision_output claim_data fraud_indicators "REJECTED" 0
        all_critical_issues all_warnings confidence_score coverage_analysis
        "Unable to process claim"
        "Please contact customer support for assistance with your claim."

/-! ## Complete pipeline (pure data flow of `process_claim_complete`,
steps 1-7) -/

/-- The pure data flow of `process_claim_complete` from a merged claim
record to the final decision (persistence elided; the shared
`self.fraud_indicators` field holds exactly the indicators of the fraud
step just run). -/
def run_pipeline (ext : Ext) (p : Policy) (claim_data : ClaimData) : Decision :=
  let eligibility := check_basic_eligibility ext p claim_data
  let doc_validation := validate_documents p claim_data
  let coverage_verification := verify_coverage p claim_data
  let coverage_analysis := analyze_coverage ext p claim_data.items
  let limit_validation := validate_limits ext p claim_data coverage_analysis
  let medical_necessity := review_medical_necessity ext p claim_data
  let fraud_detection := detect_fraud_indicators p claim_data
  make_adjudication_decision p fraud_detection.indicators claim_data eligibility
    doc_validation coverage_verification limit_validation
    { issues := medical_necessity.issues } coverage_analysis fraud_detection

/-! ## Document merging (`_merge_claim_data`) -/

/-- A per-document extracted record, as produced by `extract_claim_data`.
Document-specific payloads that the merge only copies around
(`billing_details`, `pharmacy_items`, …) are kept as opaque strings. -/
structure XRec where
  patient_name : Option String := none
  patient_age : Option String := none
  patient_gender : Option String := none
  patient_dob : Option String := none
  employee_id : Option String := none
  policy_number : Option String := none
  treatment_date : Option String := none
  doctor_name : Option String := none
  doctor_registration : Option String := none
  doctor_specialization : Option String := none
  diagnosis : Option String := none
  symptoms : Option String := none
  prescription_details : Option String := none
  hospital_name : Option String := none
  hospital_registration : Option String := none
  hospital_address : Option String := none
  consultation_fee : Option String := none
  billing_details : Option String := none
  pharmacy_items : Option String := none
  medicines_total : Option String := none
  test_results : Option String := none
  diagnostic_details : Option String := none
  items : Option (List LineItem) := none
  total_amount : Option ℚ := none
deriving DecidableEq

/-- The merged claim record accumulated by `_merge_claim_data`
(the extracted fields plus the keys the merge itself introduces;
`none` on a list/map field means the key is absent from the dict). -/
structure MRec where
  patient_name : Option String := none
  patient_age : Option String := none
  patient_gender : Option String := none
  patient_dob : Option String := none
  employee_id : Option String := none
  policy_number : Option String := none
  treatment_date : Option String := none
  doctor_name : Option String := none
  doctor_registration : Option String := none
  doctor_specialization : Option String := none
  diagnosis : Option String := none
  symptoms : Option String := none
  prescription_details : Option String := none
  hospital_name : Option String := none
  hospital_registration : Option String := none
  hospital_address : Option String := none
  consultation_fee : Option String := none
  billing_details : Option String := none
  pharmacy_items : Option String := none
  medicines_total : Option String := none
  test_results : Option String := none
  diagnostic_details : Option String := none
  items : Option (List LineItem) := none
  total_amount : Option ℚ := none
  prescription_items : Option (List LineItem) := none
  lab_results_items : Option (List LineItem) := none
  prescribed_medicines : Option (List LineItem) := none
  lab_tests : Option (List LineItem) := none
  bill_totals : Option (List (String × ℚ)) := none
  documents_data : Option (List (String × XRec)) := none
deriving DecidableEq

/-- The first processed document is returned verbatim
(`if not existing_data: return new_data`): only the extracted keys are
present. -/
def XRec.toMRec (x : XRec) : MRec :=
  { patient_name := x.patient_name
    patient_age := x.patient_age
    patient_gender := x.patient_gender
    patient_dob := x.patient_dob
    employee_id := x.employee_id
    policy_number := x.policy_number
    treatment_date := x.treatment_date
    doctor_name := x.doctor_name
    doctor_registration := x.doctor_registration
    doctor_specialization := x.doctor_specialization
    diagnosis := x.diagnosis
    symptoms := x.symptoms
    prescription_details := x.prescription_details
    hospital_name := x.hospital_name
    hospital_registration := x.hospital_registration
    hospital_address := x.hospital_address
    consultation_fee := x.consultation_fee
    billing_details := x.billing_details
    pharmacy_items := x.pharmacy_items
    medicines_total := x.medicines_total
    test_results := x.test_results
    diagnostic_details := x.diagnostic_details
    items := x.items
    total_amount := x.total_amount }

/-- Python dict assignment `d[k] = v` on an association list
(replace in place, else append). -/
def assocSet {α : Type} : List (String × α) → String → α → List (String × α)
  | [], k, v => [(k, v)]
  | (k', v') :: rest, k, v =>
      if k' = k then (k', v) :: rest else (k', v') :: assocSet rest k v

/-- The basic patient-info loop: first truthy value wins, the existing
record's value taking precedence over the new document's. -/
def merge_basic_fields (m : MRec) (x : XRec) : MRec :=
  { m with
    patient_name :=
      if strTruthy x.patient_name ∧ ¬ strTruthy m.patient_name then
        x.patient_name else m.patient_name
    patient_age :=
      if strTruthy x.patient_age ∧ ¬ strTruthy m.patient_age then
        x.patient_age else m.patient_age
    patient_gender :=
      if strTruthy x.patient_gender ∧ ¬ strTruthy m.patient_gender then
        x.patient_gender else m.patient_gender
    patient_dob :=
      if strTruthy x.patient_dob ∧ ¬ strTruthy m.patient_dob then
        x.patient_dob else m.patient_dob
    employee_id :=
      if strTruthy x.employee_id ∧ ¬ strTruthy m.employee_id then
        x.employee_id else m.employee_id
    policy_number :=
      if strTruthy x.policy_number ∧ ¬ strTruthy m.policy_number then
        x.policy_number else m.policy_number
    treatment_date :=
      if strTruthy x.treatment_date ∧ ¬ strTruthy m.treatment_date then
        x.treatment_date else m.treatment_date }

/-- The item loop: tag items with the source document, coerce `None`
amounts to `0`, route prescription/lab items to their reference lists and
keep only positively-priced bill items in the billable list. -/
def merge_items (m : MRec) (new_items : List LineItem) (doc_type : String) : MRec :=
  let tagged := new_items.map fun item =>
    { item with
        source_document := some doc_type
        amount := some (item.amount.getD 0) }
  if doc_type = "prescription" then
    { m with prescription_items := some ((m.prescription_items.getD []) ++ tagged) }
  else if doc_type = "lab_results" then
    { m with lab_results_items := some ((m.lab_results_items.getD []) ++ tagged) }
  else
    { m with items := some ((m.items.getD []) ++
        tagged.filter fun item => item.amount.getD 0 > 0) }

/-- The `priority_map` loop: each document type overwrites its own fields
when the new value is truthy. -/
def apply_priority_fields (m : MRec) (x : XRec) (doc_type : String) : MRec :=
  if doc_type = "prescription" then
    { m with
      doctor_name := if strTruthy x.doctor_name then x.doctor_name else m.doctor_name
      doctor_registration :=
        if strTruthy x.doctor_registration then x.doctor_registration
        else m.doctor_registration
      doctor_specialization :=
        if strTruthy x.doctor_specialization then x.doctor_specialization
        else m.doctor_specialization
      diagnosis := if strTruthy x.diagnosis then x.diagnosis else m.diagnosis
      symptoms := if strTruthy x.symptoms then x.symptoms else m.symptoms
      prescription_details :=
        if strTruthy x.prescription_details then x.prescription_details
        else m.prescription_details }
  else if doc_type = "medical_bill" then
    { m with
      hospital_name :=
        if strTruthy x.hospital_name then x.hospital_name else m.hospital_name
      hospital_registration :=
        if strTruthy x.hospital_registration then x.hospital_registration
        else m.hospital_registration
      hospital_address :=
        if strTruthy x.hospital_address then x.hospital_address
        else m.hospital_address
      consultation_fee :=
        if strTruthy x.consultation_fee then x.consultation_fee
        else m.consultation_fee
      billing_details :=
        if strTruthy x.billing_details then x.billing_details
        else m.billing_details }
  else if doc_type = "pharmacy_bill" then
    { m with
      pharmacy_items :=
        if strTruthy x.pharmacy_items then x.pharmacy_items else m.pharmacy_items
      medicines_total :=
        if strTruthy x.medicines_total then x.medicines_total
        else m.medicines_total }
  else if doc_type = "lab_results" then
    { m with
      test_results :=
        if strTruthy x.test_results then x.test_results else m.test_results
      diagnostic_details :=
        if strTruthy x.diagnostic_details then x.diagnostic_details
        else m.diagnostic_details }
  else m

/-- The medical-details block for `prescription` and `lab_results`
documents (unconditional overwrites with empty-string fallbacks). -/
def merge_medical_details (m : MRec) (x : XRec) (tagged_items : List LineItem)
    (doc_type : String) : MRec :=
  if doc_type = "prescription" then
    { m with
        prescription_details := some (x.prescription_details.getD "")
        diagnosis := some (x.diagnosis.getD (m.diagnosis.getD ""))
        symptoms := some (x.symptoms.getD (m.symptoms.getD ""))
        prescribed_medicines := some tagged_items }
  else if doc_type = "lab_results" then
    { m with
        test_results := some (x.test_results.getD "")
        lab_tests := some tagged_items }
  else m

/-- The bill-totals block and the `total_amount` recomputation. -/
def merge_totals (m : MRec) (x : XRec) (doc_type : String) : MRec :=
  let m₁ :=
    if (doc_type = "medical_bill" ∨ doc_type = "pharmacy_bill") ∧
        qTruthy x.total_amount then
      let updated := assocSet (m.bill_totals.getD []) doc_type (x.total_amount.getD 0)
      { m with bill_totals := some updated }
    else m
  match m₁.bill_totals with
  | some totals => { m₁ with total_amount := some ((totals.map Prod.snd).sum) }
  | none =>
      match m₁.items with
      | some items =>
          if ¬ items.isEmpty then
            let s := ((items.map fun item => item.amount.getD 0).sum : ℚ)
            { m₁ with total_amount := some s }
          else { m₁ with total_amount := some (m₁.total_amount.getD 0) }
      | none => { m₁ with total_amount := some (m₁.total_amount.getD 0) }

/-- Record the raw extracted data of this document (with its items as
mutated by the item loop, sharing the Python list object). -/
def record_documents_data (m : MRec) (x : XRec) (tagged_items : Option (List LineItem))
    (doc_type : String) : MRec :=
  let updated := assocSet (m.documents_data.getD []) doc_type { x with items := tagged_items }
  { m with documents_data := some updated }

/-- Embeds `_merge_claim_data`: `existing_data = none` models the empty initial
dict, which short-circuits to the new document's record. -/
def merge_claim_data (existing_data : Option MRec) (new_data : XRec)
    (doc_type : String) : MRec :=
  match existing_data with
  | none => new_data.toMRec
  | some existing =>
      let merged := merge_basic_fields existing new_data
      let has_items := new_data.items.isSome ∧ ¬ (new_data.items.getD []).isEmpty
      let tagged_items : Option (List LineItem) :=
        if has_items then
          some ((new_data.items.getD []).map fun item =>
            { item with
                source_document := some doc_type
                amount := some (item.amount.getD 0) })
        else new_data.items
      let merged :=
        if has_items then merge_items merged (new_data.items.getD []) doc_type
        else merged
      let merged := apply_priority_fields merged new_data doc_type
      let merged := merge_medical_details merged new_data (tagged_items.getD []) doc_type
      let merged := merge_totals merged new_data doc_type
      record_documents_data merged new_data tagged_items doc_type

/-- Folding `_merge_claim_data` over the documents in arrival order, as
`process_claim_complete` does. -/
def merge_fold (docs : List (String × XRec)) : Option MRec :=
  docs.foldl (fun acc pr => some (merge_claim_data acc pr.2 pr.1)) none

/-! ## Database effects of the pipeline tail (`process_claim_complete`
lines 2056-2074 and `db_manager.py`) -/

/-- A row of the `claims` table (the columns the utilization query reads;
`approved_amount` is `NULL` until a decision is stored). -/
structure ClaimRow where
  claim_id : String
  policy_id : Option String := none
  approved_amount : Option ℚ := none
deriving DecidableEq

/-- A row of the `claim_items` table (the columns touched by the
utilization query's join and by `create_claim_items`). -/
structure ItemRow where
  claim_id : String
  category : String
  approved_amount : ℚ := 0
deriving DecidableEq

/-- Database state: the `claims` and `claim_items` rows, and the
per-policy `claims_ytd` column of the `policies` table. -/
structure DbState where
  claims : List ClaimRow := []
  claim_items : List ItemRow := []
  claims_ytd : List (String × ℚ) := []
deriving DecidableEq

/-- Embeds `DatabaseManager.create_claim` (the columns modelled here). -/
def db_create_claim (s : DbState) (claim_data : ClaimData) : DbState :=
  { s with claims := s.claims ++
      [{ claim_id := claim_data.claim_id.getD ""
         policy_id := claim_data.policy_id }] }

/-- The `claims_ytd` column value for a policy. -/
def ytd_column (s : DbState) (policy_id : String) : ℚ :=
  (((s.claims_ytd.find? fun pr => pr.1 = policy_id).map Prod.snd).getD 0)

/-- Embeds `DatabaseManager.create_claim_items`: bulk-inserts one row per
analyzed item (the columns modelled here). -/
def db_create_claim_items (s : DbState) (claim_id : String)
    (items : List ItemRow) : DbState :=
  { s with claim_items := s.claim_items ++
      items.map fun it => { it with claim_id := claim_id } }

/-- Shape of the seed record handed to the category checkers by
`_analyze_item_detailed`. -/
def seedInv (item : LineItem) (result : ItemAnalysis) : Prop :=
  result.claimed_amount = item.amount.getD 0 ∧ result.approved_amount = 0 ∧
    result.rejected_amount = 0 ∧ result.copay_amount = 0

/-- Conservation of the claimed amount in an analysis record. -/
def amountInv (r : ItemAnalysis) : Prop :=
  r.claimed_amount = r.approved_amount + r.rejected_amount + r.copay_amount

/-- Sum of approved, rejected and copay amounts over an item breakdown. -/
def breakdown_sum (l : List FinalItem) : ℚ :=
  (l.map fun it => it.approved_amount + it.rejected_amount + it.copay_amount).sum

/-- Sanity of one coverage rule: limits and copay percentages are
non-negative (as in every shipped policy configuration). -/
def rule_sane (r : CoverageRule) : Prop :=
  0 ≤ r.sub_limit.getD 0 ∧ 0 ≤ r.copay_percentage.getD 0 ∧
    0 ≤ r.branded_drugs_copay.getD 0

/-- Sanity of a policy configuration: every category rule is sane. -/
def policy_sane (p : Policy) : Prop :=
  rule_sane p.consultation_fees ∧ rule_sane p.diagnostic_tests ∧
    rule_sane p.pharmacy ∧ rule_sane p.dental ∧ rule_sane p.vision ∧
    rule_sane p.alternative_medicine

/-- Non-negativity of the deduction parts of an analysis record. -/
def nonnegParts (r : ItemAnalysis) : Prop :=
  0 ≤ r.rejected_amount ∧ 0 ≤ r.copay_amount

/-- External collaborators behaving benignly: the necessity delegate
answers "necessary". -/
def benign_ext : Ext := { necessity_result := some { is_necessary := true } }

/-- The policy of spec scenarios B and C: consultations covered with a
sub-limit of 1000 and a 10% copay. -/
def scenario_policy : Policy :=
  { effective_date := some 0
    consultation_fees :=
      { covered := true, sub_limit := some 1000, copay_percentage := some 10 } }

/-- A fully well-formed claim with a single consultation item of the
given amount. -/
def scenario_claim (amount : ℚ) : ClaimData :=
  { claim_id := some "CLM1"
    patient_name := some "John Doe"
    treatment_date := some 100
    claim_date := some 101
    document_types_submitted := ["prescription", "medical_bill"]
    items := [{ description := "Consultation - General Physician",
                category := "consultation", amount := some amount }]
    total_amount := some amount
    doctor_registration := some "AB/12345/2020"
    doctor_name := some "Dr. Mehta"
    hospital_name := some "City Hospital"
    diagnosis := some "Viral fever" }

/-- Modelled from the spec: the hard-rejection code set as the spec's
section 4.9 states it — the source's `rejection_codes` plus the three
limit codes the spec additionally lists.  Used only to compare the spec's
claim against the code's behaviour. -/
def spec_hard_rejection_codes : List String :=
  rejection_codes ++ ["PER_CLAIM_EXCEEDED", "ANNUAL_LIMIT_EXCEEDED", "BELOW_MIN_AMOUNT"]

/-- A policy with a minimum claim amount of 1000 (and consultations
covered without copay). -/
def c1_policy : Policy :=
  { effective_date := some 0
    minimum_claim_amount := some 1000
    consultation_fees := { covered := true } }

/-- A clean claim of 500 under `c1_policy` — below the minimum amount. -/
def c1_claim : ClaimData :=
  { (scenario_claim 500) with claim_id := some "CLM2" }

/-- A sane policy with consultations covered, no sub-limit, no copay. -/
def c5_policy : Policy :=
  { effective_date := some 0
    consultation_fees := { covered := true } }

/-- A claim with diagnosis and one pharmacy item, used to exercise the
medical-necessity review. -/
def c8_claim : ClaimData :=
  { diagnosis := some "Viral fever"
    items := [{ description := "Paracetamol 500mg", category := "pharmacy",
                amount := some 100 }] }

/-- A (degenerate but accepted) policy configuration with a negative
high-value threshold. -/
def c9_policy : Policy := { high_value_threshold := some (-1) }

/-- A claim of total 1 with the default critical fields present. -/
def c9_claim : ClaimData :=
  { total_amount := some 1
    doctor_registration := some "AB/12345/2020"
    hospital_name := some "City Hospital" }

/-- A medical-bill extract carrying a patient name and a bill total. -/
def x_medical_bill : XRec :=
  { patient_name := some "Alice Kumar", total_amount := some 100 }

/-- A pharmacy-bill extract carrying a conflicting patient name and its
own bill total. -/
def x_pharmacy_bill : XRec :=
  { patient_name := some "Bob Singh", total_amount := some 200 }

/-- A critical waiting-period issue. -/
def w_issue : Issue :=
  { code := "WAITING_PERIOD", severity := "critical",
    message := "Treatment during waiting period" }

/-- An eligibility step result carrying `w_issue`. -/
def w_elig : StepResult := { issues := [w_issue] }

/-- An empty coverage analysis. -/
def w_ca : CoverageAnalysis :=
  { item_analysis := [], total_approved := 0, total_rejected := 0, total_copay := 0 }

/-- A clean fraud-detection result. -/
def w_fraud : FraudResult :=
  { fraud_score := 0, indicators := [], requires_manual_review := false }

/-! ## Helper lemmas: per-item amount conservation -/

set_option linter.unreachableTactic false
set_option linter.unusedTactic false
set_option maxRecDepth 100000

/-- Consultation checker preserves the claimed amount as the sum of the
three parts. -/
lemma check_consultation_coverage_inv (p : Policy) (item : LineItem)
    (result : ItemAnalysis) (h : seedInv item result) :
    amountInv (check_consultation_coverage p item result) := by
  obtain ⟨hc, ha, hr, hk⟩ := h
  simp only [amountInv, check_consultation_coverage]
  repeat' split
  all_goals simp_all
  all_goals ring

/-- Diagnostic checker preserves the claimed amount. -/
lemma check_diagnostic_coverage_inv (ext : Ext) (p : Policy) (item : LineItem)
    (result : ItemAnalysis) (h : seedInv item result) :
    amountInv (check_diagnostic_coverage ext p item result) := by
  obtain ⟨hc, ha, hr, hk⟩ := h
  simp only [amountInv, check_diagnostic_coverage]
  repeat' split
  all_goals simp_all

/-- Pharmacy checker preserves the claimed amount. -/
lemma check_pharmacy_coverage_inv (p : Policy) (item : LineItem)
    (result : ItemAnalysis) (h : seedInv item result) :
    amountInv (check_pharmacy_coverage p item result) := by
  obtain ⟨hc, ha, hr, hk⟩ := h
  simp only [amountInv, check_pharmacy_coverage]
  repeat' split
  all_goals simp_all
  all_goals ring

/-- Dental checker preserves the claimed amount. -/
lemma check_dental_coverage_inv (p : Policy) (item : LineItem)
    (result : ItemAnalysis) (h : seedInv item result) :
    amountInv (check_dental_coverage p item result) := by
  obtain ⟨hc, ha, hr, hk⟩ := h
  simp only [amountInv, check_dental_coverage]
  repeat' split
  all_goals simp_all

/-- Vision checker preserves the claimed amount. -/
lemma check_vision_coverage_inv (p : Policy) (item : LineItem)
    (result : ItemAnalysis) (h : seedInv item result) :
    amountInv (check_vision_coverage p item result) := by
  obtain ⟨hc, ha, hr, hk⟩ := h
  simp only [amountInv, check_vision_coverage]
  repeat' split
  all_goals simp_all

/-- Alternative-medicine checker preserves the claimed amount. -/
lemma check_alternative_coverage_inv (p : Policy) (item : LineItem)
    (result : ItemAnalysis) (h : seedInv item result) :
    amountInv (check_alternative_coverage p item result) := by
  obtain ⟨hc, ha, hr, hk⟩ := h
  simp only [amountInv, check_alternative_coverage]
  repeat' split
  all_goals simp_all

/-- Exact conservation for every analyzed item, every category, every
policy and every oracle behaviour. -/
lemma analyze_item_detailed_inv (ext : Ext) (p : Policy) (item : LineItem) :
    amountInv (analyze_item_detailed ext p item) := by
  have hseed : seedInv item
      { description := item.description, category := item.category,
        claimed_amount := item.amount.getD 0 } := by
    simp [seedInv]
  simp only [analyze_item_detailed]
  split
  · simp [amountInv]
  · repeat' split
    · exact check_consultation_coverage_inv p item _ hseed
    · exact check_diagnostic_coverage_inv ext p item _ hseed
    · exact check_pharmacy_coverage_inv p item _ hseed
    · exact check_dental_coverage_inv p item _ hseed
    · exact check_vision_coverage_inv p item _ hseed
    · exact check_alternative_coverage_inv p item _ hseed
    · simp [amountInv]

/-! ## Helper lemmas: item breakdown sums -/

/-- Finalizing one item never changes the sum of its three amount parts,
for any final decision, given conservation. -/
lemma finalize_item_contrib (dec reason : String) (r : ItemAnalysis)
    (h : amountInv r) :
    (finalize_item dec reason r).approved_amount +
      (finalize_item dec reason r).rejected_amount +
      (finalize_item dec reason r).copay_amount =
    r.approved_amount + r.rejected_amount + r.copay_amount := by
  simp only [finalize_item, FinalItem.ofAnalysis]
  repeat' split
  all_goals simp_all [amountInv]
  all_goals linarith

/-- The finalized breakdown's amount sum equals the sum of the three
per-field sums of the analysis list. -/
lemma finalize_item_breakdown_sum (l : List ItemAnalysis) (dec reason : String)
    (h : ∀ r ∈ l, amountInv r) :
    breakdown_sum (finalize_item_breakdown l dec reason) =
      (l.map (·.approved_amount)).sum + (l.map (·.rejected_amount)).sum +
        (l.map (·.copay_amount)).sum := by
  induction l with
  | nil => simp [breakdown_sum, finalize_item_breakdown]
  | cons head tail ih =>
      have hh := h head (by simp)
      have ht : ∀ r ∈ tail, amountInv r := fun r hr => h r (by simp [hr])
      have := finalize_item_contrib dec reason head hh
      simp only [breakdown_sum, finalize_item_breakdown, List.map_cons,
        List.sum_cons] at *
      rw [this, ih ht]
      ring

/-- Every record of a coverage analysis satisfies conservation. -/
lemma analyze_coverage_inv (ext : Ext) (p : Policy) (items : List LineItem) :
    ∀ r ∈ (analyze_coverage ext p items).item_analysis, amountInv r := by
  intro r hr
  simp only [analyze_coverage, List.mem_map] at hr
  obtain ⟨item, _, rfl⟩ := hr
  exact analyze_item_detailed_inv ext p item

/-- The breakdown of a decision output is the finalized analysis list. -/
lemma create_decision_output_breakdown (claim_data : ClaimData)
    (fi : List FraudIndicator) (dec : String) (app : ℚ) (cri warn : List Issue)
    (conf : ℚ) (ca : CoverageAnalysis) (reason ns : String) :
    (create_decision_output claim_data fi dec app cri warn conf ca reason ns).item_breakdown =
      finalize_item_breakdown ca.item_analysis dec reason := rfl

/-- Breakdown-sum consistency of any decision output built over a real
coverage analysis. -/
lemma make_decision_breakdown_aux (ext : Ext) (p : Policy) (items : List LineItem)
    (claim_data : ClaimData) (fi : List FraudIndicator) (dec : String) (app : ℚ)
    (cri warn : List Issue) (conf : ℚ) (reason ns : String) :
    breakdown_sum (create_decision_output claim_data fi dec app cri warn conf
        (analyze_coverage ext p items) reason ns).item_breakdown =
      (analyze_coverage ext p items).total_approved +
        (analyze_coverage ext p items).total_rejected +
        (analyze_coverage ext p items).total_copay := by
  rw [create_decision_output_breakdown]
  rw [finalize_item_breakdown_sum _ _ _ (analyze_coverage_inv ext p items)]
  rfl

/-! ## Helper lemmas: non-negativity of deductions -/

/-- Consultation deductions are non-negative under a sane rule. -/
lemma check_consultation_coverage_nonneg (p : Policy) (item : LineItem)
    (result : ItemAnalysis) (hs : rule_sane p.consultation_fees)
    (hpos : 0 < item.amount.getD 0) (hr : result.rejected_amount = 0)
    (hk : result.copay_amount = 0) :
    nonnegParts (check_consultation_coverage p item result) := by
  obtain ⟨h1, h2, h3⟩ := hs
  simp only [nonnegParts, check_consultation_coverage]
  repeat' split
  all_goals simp_all
  all_goals try constructor
  all_goals first
    | positivity
    | linarith

/-- Diagnostic deductions are non-negative. -/
lemma check_diagnostic_coverage_nonneg (ext : Ext) (p : Policy) (item : LineItem)
    (result : ItemAnalysis) (hpos : 0 < item.amount.getD 0)
    (hr : result.rejected_amount = 0) (hk : result.copay_amount = 0) :
    nonnegParts (check_diagnostic_coverage ext p item result) := by
  simp only [nonnegParts, check_diagnostic_coverage]
  repeat' split
  all_goals simp_all
  all_goals linarith

/-- Pharmacy deductions are non-negative under a sane rule. -/
lemma check_pharmacy_coverage_nonneg (p : Policy) (item : LineItem)
    (result : ItemAnalysis) (hs : rule_sane p.pharmacy)
    (hpos : 0 < item.amount.getD 0) (hr : result.rejected_amount = 0)
    (hk : result.copay_amount = 0) :
    nonnegParts (check_pharmacy_coverage p item result) := by
  obtain ⟨h1, h2, h3⟩ := hs
  simp only [nonnegParts, check_pharmacy_coverage]
  repeat' split
  all_goals simp_all
  all_goals try constructor
  all_goals first
    | positivity
    | linarith

/-- Dental deductions are non-negative. -/
lemma check_dental_coverage_nonneg (p : Policy) (item : LineItem)
    (result : ItemAnalysis) (hpos : 0 < item.amount.getD 0)
    (hr : result.rejected_amount = 0) (hk : result.copay_amount = 0) :
    nonnegParts (check_dental_coverage p item result) := by
  simp only [nonnegParts, check_dental_coverage]
  repeat' split
  all_goals simp_all
  all_goals linarith

/-- Vision deductions are non-negative. -/
lemma check_vision_coverage_nonneg (p : Policy) (item : LineItem)
    (result : ItemAnalysis) (hpos : 0 < item.amount.getD 0)
    (hr : result.rejected_amount = 0) (hk : result.copay_amount = 0) :
    nonnegParts (check_vision_coverage p item result) := by
  simp only [nonnegParts, check_vision_coverage]
  repeat' split
  all_goals simp_all
  all_goals linarith

/-- Alternative-medicine deductions are non-negative. -/
lemma check_alternative_coverage_nonneg (p : Policy) (item : LineItem)
    (result : ItemAnalysis) (hpos : 0 < item.amount.getD 0)
    (hr : result.rejected_amount = 0) (hk : result.copay_amount = 0) :
    nonnegParts (check_alternative_coverage p item result) := by
  simp only [nonnegParts, check_alternative_coverage]
  repeat' split
  all_goals simp_all
  all_goals linarith

/-- Every analyzed item has non-negative deductions under a sane policy. -/
lemma analyze_item_detailed_nonneg (ext : Ext) (p : Policy) (item : LineItem)
    (hs : policy_sane p) (hpos : 0 < item.amount.getD 0) :
    nonnegParts (analyze_item_detailed ext p item) := by
  obtain ⟨s1, s2, s3, s4, s5, s6⟩ := hs
  simp only [analyze_item_detailed]
  split
  · simp [nonnegParts]
    linarith
  · repeat' split
    · exact check_consultation_coverage_nonneg p item _ s1 hpos rfl rfl
    · exact check_diagnostic_coverage_nonneg ext p item _ hpos rfl rfl
    · exact check_pharmacy_coverage_nonneg p item _ s3 hpos rfl rfl
    · exact check_dental_coverage_nonneg p item _ hpos rfl rfl
    · exact check_vision_coverage_nonneg p item _ hpos rfl rfl
    · exact check_alternative_coverage_nonneg p item _ hpos rfl rfl
    · simp [nonnegParts]
      linarith

/-- Items surviving the billable filter have a positive amount. -/
lemma skip_item_false_pos (item : LineItem) (h : skip_item item = false) :
    0 < item.amount.getD 0 := by
  simp only [skip_item, Bool.or_eq_false_iff] at h
  obtain ⟨⟨⟨_, h2⟩, _⟩, _⟩ := h
  simpa using h2

/-- The rejected and copay totals of a coverage analysis are non-negative
under a sane policy. -/
lemma analyze_coverage_nonneg (ext : Ext) (p : Policy) (items : List LineItem)
    (hs : policy_sane p) :
    0 ≤ (analyze_coverage ext p items).total_rejected ∧
      0 ≤ (analyze_coverage ext p items).total_copay := by
  constructor
  all_goals {
    apply List.sum_nonneg
    intro x hx
    simp only [analyze_coverage, List.map_map, List.mem_map, List.mem_filter,
      Function.comp] at hx
    obtain ⟨item, ⟨_, hskip⟩, rfl⟩ := hx
    have := analyze_item_detailed_nonneg ext p item hs
      (skip_item_false_pos item (by simpa using hskip))
    first
      | exact this.1
      | exact this.2
  }

/-- The decision field of a decision output is the passed decision. -/
lemma create_decision_output_decision (claim_data : ClaimData)
    (fi : List FraudIndicator) (dec : String) (app : ℚ) (cri warn : List Issue)
    (conf : ℚ) (ca : CoverageAnalysis) (reason ns : String) :
    (create_decision_output claim_data fi dec app cri warn conf ca reason ns).decision =
      dec := rfl

/-! ## Helper lemmas: rounding and score bounds -/

/-- Rounding zero gives zero. -/
lemma round2_zero : round2 0 = 0 := by
  norm_num [round2, roundHalfEven]

/-- Banker's rounding of a non-negative rational is non-negative. -/
lemma roundHalfEven_nonneg (y : ℚ) (hy : 0 ≤ y) : 0 ≤ roundHalfEven y := by
  have hf : 0 ≤ ⌊y⌋ := Int.floor_nonneg.mpr hy
  simp only [roundHalfEven]
  repeat' split
  all_goals omega

/-- Banker's rounding of a rational at most 100 is at most 100. -/
lemma roundHalfEven_le (y : ℚ) (hy : y ≤ 100) : roundHalfEven y ≤ 100 := by
  have hf : ⌊y⌋ ≤ 100 := by
    calc ⌊y⌋ ≤ ⌊(100 : ℚ)⌋ := Int.floor_le_floor hy
    _ = 100 := by norm_num
  have hfle : (⌊y⌋ : ℚ) ≤ y := Int.floor_le y
  simp only [roundHalfEven]
  split
  · exact hf
  · rename_i hlt
    push_neg at hlt
    have h99 : ⌊y⌋ ≤ 99 := by
      have hq : (⌊y⌋ : ℚ) + 1/2 ≤ y := by linarith
      have hq2 : (⌊y⌋ : ℚ) < 100 := by linarith
      have : ⌊y⌋ < 100 := by exact_mod_cast hq2
      omega
    repeat' split
    all_goals omega

/-- Rounding to two decimals keeps values inside the unit interval. -/
lemma round2_mem (x : ℚ) (h0 : 0 ≤ x) (h1 : x ≤ 1) :
    0 ≤ round2 x ∧ round2 x ≤ 1 := by
  have hr0 : 0 ≤ roundHalfEven (100 * x) :=
    roundHalfEven_nonneg _ (by linarith)
  have hr1 : roundHalfEven (100 * x) ≤ 100 :=
    roundHalfEven_le _ (by linarith)
  constructor
  · simp only [round2]
    positivity
  · simp only [round2]
    rw [div_le_one (by norm_num)]
    exact_mod_cast hr1

/-- The raw comprehensive confidence is clamped to the unit interval. -/
lemma calculate_comprehensive_confidence_mem (p : Policy)
    (claim_data : ClaimData) (warnings : List Issue) (fraud : FraudResult) :
    0 ≤ calculate_comprehensive_confidence p claim_data warnings fraud ∧
      calculate_comprehensive_confidence p claim_data warnings fraud ≤ 1 := by
  simp only [calculate_comprehensive_confidence]
  constructor
  · exact le_max_left 0 _
  · exact max_le (by norm_num) (min_le_left 1 _)

/-- Every branch of the decision engine reports the rounded comprehensive
confidence. -/
lemma make_adjudication_decision_confidence (p : Policy)
    (fi : List FraudIndicator) (claim_data : ClaimData)
    (elig docv covv limv mednec : StepResult) (ca : CoverageAnalysis)
    (fraud : FraudResult) :
    (make_adjudication_decision p fi claim_data elig docv covv limv mednec
        ca fraud).confidence_score =
      round2 (calculate_comprehensive_confidence p claim_data
        (collect_warnings elig docv covv limv mednec) fraud) := by
  simp only [make_adjudication_decision]
  repeat' split
  all_goals rfl

/-- The fraud score is inside the unit interval whenever the configured
high-value threshold is positive. -/
lemma detect_fraud_indicators_mem (p : Policy) (claim_data : ClaimData)
    (h : 0 < p.high_value_threshold.getD 25000) :
    0 ≤ (detect_fraud_indicators p claim_data).fraud_score ∧
      (detect_fraud_indicators p claim_data).fraud_score ≤ 1 := by
  simp only [detect_fraud_indicators]
  constructor
  · apply le_min ?_ (by norm_num)
    apply List.sum_nonneg
    intro x hx
    simp only [List.map_append, List.mem_append] at hx
    rcases hx with (hx | hx) | hx
    · split at hx
      · rename_i hcond
        simp only [List.map_cons, List.map_nil, List.mem_singleton] at hx
        subst hx
        have htot : 0 < claim_data.total_amount.getD 0 := lt_trans h hcond
        apply le_min (by norm_num)
        positivity
      · simp at hx
    · simp only [List.map_map, List.mem_map, Function.comp] at hx
      obtain ⟨f, _, rfl⟩ := hx
      norm_num
    · split at hx
      · simp only [List.map_cons, List.map_nil, List.mem_singleton] at hx
        subst hx
        norm_num
      · simp at hx
  · exact min_le_right _ 1

/-! ## Helper lemmas: merge projections -/

/-- Recording document data does not touch the patient name. -/
lemma record_documents_data_patient (m : MRec) (x : XRec)
    (ti : Option (List LineItem)) (t : String) :
    (record_documents_data m x ti t).patient_name = m.patient_name := rfl

/-- Recomputing totals does not touch the patient name. -/
lemma merge_totals_patient (m : MRec) (x : XRec) (t : String) :
    (merge_totals m x t).patient_name = m.patient_name := by
  simp only [merge_totals]
  repeat' split
  all_goals rfl

/-- Medical-detail merging does not touch the patient name. -/
lemma merge_medical_details_patient (m : MRec) (x : XRec)
    (ti : List LineItem) (t : String) :
    (merge_medical_details m x ti t).patient_name = m.patient_name := by
  simp only [merge_medical_details]
  repeat' split
  all_goals rfl

/-- Priority-field merging does not touch the patient name. -/
lemma apply_priority_fields_patient (m : MRec) (x : XRec) (t : String) :
    (apply_priority_fields m x t).patient_name = m.patient_name := by
  simp only [apply_priority_fields]
  repeat' split
  all_goals rfl

/-- Item merging does not touch the patient name. -/
lemma merge_items_patient (m : MRec) (l : List LineItem) (t : String) :
    (merge_items m l t).patient_name = m.patient_name := by
  simp only [merge_items]
  repeat' split
  all_goals rfl

/-- The basic-field loop resolves the patient name first-truthy-wins. -/
lemma merge_basic_fields_patient (m : MRec) (x : XRec) :
    (merge_basic_fields m x).patient_name =
      if strTruthy x.patient_name ∧ ¬ strTruthy m.patient_name then
        x.patient_name else m.patient_name := rfl

/-- One merge step resolves the patient name first-truthy-wins: the
existing record's value survives unless it is missing or empty. -/
lemma merge_claim_data_patient (m : MRec) (x : XRec) (t : String) :
    (merge_claim_data (some m) x t).patient_name =
      if strTruthy x.patient_name ∧ ¬ strTruthy m.patient_name then
        x.patient_name else m.patient_name := by
  simp only [merge_claim_data]
  rw [record_documents_data_patient, merge_totals_patient,
    merge_medical_details_patient, apply_priority_fields_patient]
  split
  · rw [merge_items_patient, merge_basic_fields_patient]
  · rw [merge_basic_fields_patient]

/-! ## Helper lemmas: database effects -/

/-- Creating a claim never touches the `claims_ytd` column. -/
lemma ytd_column_create (s : DbState) (c : ClaimData) (pid : String) :
    ytd_column (db_create_claim s c) pid = ytd_column s pid := rfl

/-- The scenario policy for the C5 witness is sane. -/
theorem c5_sane : policy_sane c5_policy := by
  norm_num [policy_sane, rule_sane, c5_policy]

/-! ## Claim C1 — hard-rejection set -/

/-- C1 counterexample: a claim whose accumulated critical issues contain
`BELOW_MIN_AMOUNT` — a code the claim places in the hard-rejection set —
is nevertheless APPROVED with a non-zero amount by the decision engine:
the source's `rejection_codes` set does not contain the three limit
codes. -/
theorem c1_counterexample :
    ((run_pipeline benign_ext c1_policy c1_claim).critical_issues.filter fun i =>
        spec_hard_rejection_codes.contains i.code) ≠ [] ∧
      (run_pipeline benign_ext c1_policy c1_claim).decision = "APPROVED" ∧
      (run_pipeline benign_ext c1_policy c1_claim).approved_amount ≠ 0 := by
  with_unfolding_all decide

/-- C1 (amended): whenever the accumulated critical issues contain a code
of the source's hard-rejection set — policy inactive/expired, waiting
period, member not covered, excluded condition, cosmetic/experimental, or
late submission, but NOT the per-claim/annual-limit or below-minimum
codes — `make_adjudication_decision` returns REJECTED with
approved_amount 0 and reason equal to the first such issue's message. -/
theorem c1_hard_rejection_amended (p : Policy) (fi : List FraudIndicator)
    (claim_data : ClaimData) (elig docv covv limv mednec : StepResult)
    (ca : CoverageAnalysis) (fraud : FraudResult) (first : Issue)
    (rest : List Issue)
    (h : (collect_critical elig docv covv limv mednec).filter
        (fun i => rejection_codes.contains i.code) = first :: rest) :
    (make_adjudication_decision p fi claim_data elig docv covv limv mednec
        ca fraud).decision = "REJECTED" ∧
      (make_adjudication_decision p fi claim_data elig docv covv limv mednec
        ca fraud).approved_amount = 0 ∧
      (make_adjudication_decision p fi claim_data elig docv covv limv mednec
        ca fraud).reason = first.message := by
  simp only [make_adjudication_decision]
  rw [h]
  exact ⟨rfl, round2_zero, rfl⟩

/-- C1 witness: the amended theorem applied to a concrete waiting-period
rejection. -/
theorem c1_hard_rejection_amended_witness :
    ((collect_critical w_elig {} {} {} {}).filter fun i =>
        rejection_codes.contains i.code) = w_issue :: [] ∧
      ((make_adjudication_decision {} [] {} w_elig {} {} {} {} w_ca w_fraud).decision =
          "REJECTED" ∧
        (make_adjudication_decision {} [] {} w_elig {} {} {} {} w_ca
          w_fraud).approved_amount = 0 ∧
        (make_adjudication_decision {} [] {} w_elig {} {} {} {} w_ca w_fraud).reason =
          w_issue.message) :=
  ⟨by decide, c1_hard_rejection_amended {} [] {} w_elig {} {} {} {} w_ca w_fraud
    w_issue [] (by decide)⟩

/-! ## Claim C2 — merge order-independence -/

/-- C2 counterexample: merging the same two extracts in the two arrival
orders yields different merged records (different patient name and
total), although the two document lists are permutations of each other. -/
theorem c2_counterexample :
    ([("medical_bill", x_medical_bill), ("pharmacy_bill", x_pharmacy_bill)].Perm
        [("pharmacy_bill", x_pharmacy_bill), ("medical_bill", x_medical_bill)]) ∧
      merge_fold [("medical_bill", x_medical_bill), ("pharmacy_bill", x_pharmacy_bill)] ≠
        merge_fold [("pharmacy_bill", x_pharmacy_bill), ("medical_bill", x_medical_bill)] := by
  with_unfolding_all decide

/-- C2 (amended): the merge is arrival-order-dependent, not
priority-ordered — for a two-document merge the basic patient fields
resolve first-truthy-wins in arrival order: the first document's
patient name survives whenever it is present and non-empty, and the
second document's value is used only otherwise. -/
theorem c2_merge_first_wins_amended (a b : XRec) (t1 t2 : String) :
    (merge_fold [(t1, a), (t2, b)]).map (fun m => m.patient_name) =
      some (if strTruthy b.patient_name ∧ ¬ strTruthy a.patient_name then
        b.patient_name else a.patient_name) := by
  have hbase : merge_claim_data none a t1 = a.toMRec := rfl
  simp only [merge_fold, List.foldl, Option.map]
  rw [hbase, merge_claim_data_patient]
  rfl

/-! ## Claim C3 — scenario B -/

/-- C3 counterexample: the scenario-B claim (consultation 800, sub-limit
1000, copay 10%) does produce item analysis 720/80/0, but the final
decision is not APPROVED — the 80 copay makes the engine return PARTIAL. -/
theorem c3_counterexample :
    ((analyze_coverage benign_ext scenario_policy (scenario_claim 800).items).item_analysis.map
        fun r => (r.approved_amount, r.copay_amount, r.rejected_amount)) = [(720, 80, 0)] ∧
      (run_pipeline benign_ext scenario_policy (scenario_claim 800)).decision ≠ "APPROVED" := by
  with_unfolding_all decide

/-- C3 (amended): scenario B — a single consultation item of 800 under a
policy with covered=true, sub_limit=1000 and copay 10% — yields item
analysis approved=720, copay=80, rejected=0, and the final decision is
PARTIAL with approved amount 720. -/
theorem c3_scenario_b_amended :
    ((analyze_coverage benign_ext scenario_policy (scenario_claim 800).items).item_analysis.map
        fun r => (r.approved_amount, r.copay_amount, r.rejected_amount)) = [(720, 80, 0)] ∧
      (run_pipeline benign_ext scenario_policy (scenario_claim 800)).decision = "PARTIAL" ∧
      (run_pipeline benign_ext scenario_policy (scenario_claim 800)).approved_amount = 720 := by
  with_unfolding_all decide

/-! ## Claim C4 — per-item amount conservation -/

/-- C4: every ItemAnalysis record produced by `_analyze_item_detailed`
satisfies claimed = approved + rejected + copay within a hundredth —
for every item, every category, every policy configuration and every
oracle behaviour (the equality is in fact exact over the rationals). -/
theorem c4_item_amount_invariant (ext : Ext) (p : Policy) (item : LineItem) :
    |(analyze_item_detailed ext p item).claimed_amount -
      ((analyze_item_detailed ext p item).approved_amount +
        (analyze_item_detailed ext p item).rejected_amount +
        (analyze_item_detailed ext p item).copay_amount)| ≤ 1/100 := by
  have h := analyze_item_detailed_inv ext p item
  rw [amountInv] at h
  rw [h]
  simp

/-! ## Claim C5 — APPROVED implies no deductions -/

/-- C5: whenever the decision over a real coverage analysis is APPROVED
(under a sane policy), that analysis has total_rejected = 0,
total_copay = 0 and no item flagged sub_limit_exceeded. -/
theorem c5_approved_implies_no_deductions (ext : Ext) (p : Policy)
    (items : List LineItem) (fi : List FraudIndicator) (claim_data : ClaimData)
    (elig docv covv limv mednec : StepResult) (fraud : FraudResult)
    (hs : policy_sane p)
    (hdec : (make_adjudication_decision p fi claim_data elig docv covv limv
        mednec (analyze_coverage ext p items) fraud).decision = "APPROVED") :
    (analyze_coverage ext p items).total_rejected = 0 ∧
      (analyze_coverage ext p items).total_copay = 0 ∧
      ∀ r ∈ (analyze_coverage ext p items).item_analysis,
        r.sub_limit_exceeded = false := by
  obtain ⟨hnr, hnc⟩ := analyze_coverage_nonneg ext p items hs
  simp only [make_adjudication_decision] at hdec
  repeat' split at hdec
  all_goals rw [create_decision_output_decision] at hdec
  all_goals try exact absurd hdec (by decide)
  all_goals {
    rename_i hnp0 hpos
    rw [not_and_or] at hnp0
    rcases hnp0 with hnp | hnp
    · push_neg at hnp
      obtain ⟨h1, h2, h3, _⟩ := hnp
      refine ⟨le_antisymm h1 hnr, le_antisymm h2 hnc, ?_⟩
      intro r hr
      rw [List.isEmpty_iff] at h3
      have := List.filter_eq_nil_iff.mp h3 r hr
      simpa using this
    · exact absurd hpos hnp
  }

/-- C5 witness: an approved consultation claim with no copay and no
sub-limit. -/
theorem c5_approved_implies_no_deductions_witness :
    policy_sane c5_policy ∧
      ((analyze_coverage benign_ext c5_policy (scenario_claim 800).items).total_rejected = 0 ∧
        (analyze_coverage benign_ext c5_policy (scenario_claim 800).items).total_copay = 0 ∧
        ∀ r ∈ (analyze_coverage benign_ext c5_policy (scenario_claim 800).items).item_analysis,
          r.sub_limit_exceeded = false) :=
  ⟨c5_sane,
    c5_approved_implies_no_deductions benign_ext c5_policy (scenario_claim 800).items
      (detect_fraud_indicators c5_policy (scenario_claim 800)).indicators
      (scenario_claim 800)
      (check_basic_eligibility benign_ext c5_policy (scenario_claim 800))
      (validate_documents c5_policy (scenario_claim 800))
      (verify_coverage c5_policy (scenario_claim 800))
      (validate_limits benign_ext c5_policy (scenario_claim 800)
        (analyze_coverage benign_ext c5_policy (scenario_claim 800).items))
      { issues := (review_medical_necessity benign_ext c5_policy
          (scenario_claim 800)).issues }
      (detect_fraud_indicators c5_policy (scenario_claim 800))
      c5_sane
      (by with_unfolding_all decide)⟩

/-! ## Claim C6 — scenario C -/

/-- C6: scenario C — a single consultation item of 1500 under the same
policy yields item analysis approved=900, copay=100, rejected=500 with
sub_limit_exceeded, and the final decision is PARTIAL. -/
theorem c6_scenario_c :
    ((analyze_coverage benign_ext scenario_policy (scenario_claim 1500).items).item_analysis.map
        fun r => (r.approved_amount, r.copay_amount, r.rejected_amount, r.sub_limit_exceeded)) =
      [(900, 100, 500, true)] ∧
      (run_pipeline benign_ext scenario_policy (scenario_claim 1500)).decision = "PARTIAL" := by
  with_unfolding_all decide

/-! ## Claim C7 — breakdown sum consistency -/

/-- C7: for every decision output over a real coverage analysis — in
every branch, including the item-status rewrites for REJECTED and
MANUAL_REVIEW — the sum over the item breakdown of approved, rejected
and copay amounts equals total_approved + total_rejected + total_copay
of the coverage analysis. -/
theorem c7_breakdown_sum_consistency (ext : Ext) (p : Policy)
    (items : List LineItem) (fi : List FraudIndicator) (claim_data : ClaimData)
    (elig docv covv limv mednec : StepResult) (fraud : FraudResult) :
    breakdown_sum (make_adjudication_decision p fi claim_data elig docv covv limv
        mednec (analyze_coverage ext p items) fraud).item_breakdown =
      (analyze_coverage ext p items).total_approved +
        (analyze_coverage ext p items).total_rejected +
        (analyze_coverage ext p items).total_copay := by
  simp only [make_adjudication_decision]
  repeat' split
  all_goals apply make_decision_breakdown_aux

/-! ## Claim C8 — fail-open necessity review -/

/-- C8 counterexample: with the necessity delegate failing to produce
parseable output, the review does fail open (is_necessary = true) but
records NOTHING on the claim — the issue list is empty, so in particular
no warning documents the failure, contradicting the claim. -/
theorem c8_counterexample :
    ({} : Ext).necessity_result = none ∧
      (review_medical_necessity {} {} c8_claim).is_necessary = true ∧
      ((review_medical_necessity {} {} c8_claim).issues.filter fun i =>
        i.severity = "warning") = [] ∧
      (review_medical_necessity {} {} c8_claim).issues = [] := by
  with_unfolding_all decide

/-- C8 (amended): when the necessity delegate fails to produce parseable
output, the review fails open — the delegate contributes is_necessary =
true — and the failure is not recorded on the claim at all: the issues
are exactly the deterministic keyword/diagnosis screening results, with
no warning and no error added for the failure. -/
theorem c8_fail_open_amended (ext : Ext) (p : Policy) (claim_data : ClaimData)
    (hfail : ext.necessity_result = none)
    (hdiag : claim_data.diagnosis.getD "" ≠ "")
    (hitems : claim_data.items ≠ []) :
    review_medical_necessity ext p claim_data =
      { is_necessary := (cosmetic_issues p claim_data).isEmpty &&
          (experimental_issues p claim_data).isEmpty
        issues := missing_diagnosis_issues claim_data
          ++ cosmetic_issues p claim_data ++ experimental_issues p claim_data } := by
  simp only [review_medical_necessity, llm_medical_necessity_check, hfail]
  rw [if_pos ⟨hdiag, by simpa [List.isEmpty_iff] using hitems⟩]
  simp

/-- C8 witness: the amended theorem applied to a concrete claim with a
diagnosis and one pharmacy item. -/
theorem c8_fail_open_amended_witness :
    (({} : Ext).necessity_result = none ∧ c8_claim.diagnosis.getD "" ≠ "" ∧
        c8_claim.items ≠ []) ∧
      review_medical_necessity {} {} c8_claim =
        { is_necessary := (cosmetic_issues {} c8_claim).isEmpty &&
            (experimental_issues {} c8_claim).isEmpty
          issues := missing_diagnosis_issues c8_claim ++ cosmetic_issues {} c8_claim
            ++ experimental_issues {} c8_claim } :=
  ⟨⟨rfl, by decide, by decide⟩,
    c8_fail_open_amended {} {} c8_claim rfl (by decide) (by decide)⟩

/-! ## Claim C9 — score bounds -/

/-- C9 counterexample: under a policy configuration with a negative
high-value threshold, `detect_fraud_indicators` returns a negative fraud
score — the result is only clamped from above, so the bound does not
hold for every policy configuration. -/
theorem c9_counterexample :
    (detect_fraud_indicators c9_policy c9_claim).fraud_score < 0 := by
  with_unfolding_all decide

/-- C9 (amended): the decision output's confidence_score lies in the unit
interval for every input, and the fraud_score returned by
`detect_fraud_indicators` lies in the unit interval for every claim
whenever the policy's high-value threshold is positive (as the default
25000 is). -/
theorem c9_score_bounds_amended (p : Policy) (claim_data : ClaimData)
    (fi : List FraudIndicator) (elig docv covv limv mednec : StepResult)
    (ca : CoverageAnalysis) (fraud : FraudResult)
    (h : 0 < p.high_value_threshold.getD 25000) :
    (0 ≤ (detect_fraud_indicators p claim_data).fraud_score ∧
        (detect_fraud_indicators p claim_data).fraud_score ≤ 1) ∧
      (0 ≤ (make_adjudication_decision p fi claim_data elig docv covv limv mednec
            ca fraud).confidence_score ∧
        (make_adjudication_decision p fi claim_data elig docv covv limv mednec
            ca fraud).confidence_score ≤ 1) := by
  refine ⟨detect_fraud_indicators_mem p claim_data h, ?_⟩
  rw [make_adjudication_decision_confidence]
  have hc := calculate_comprehensive_confidence_mem p claim_data
    (collect_warnings elig docv covv limv mednec) fraud
  exact round2_mem _ hc.1 hc.2

/-- C9 witness: the amended bounds at the scenario policy (default
threshold) and scenario claim. -/
theorem c9_score_bounds_amended_witness :
    0 < scenario_policy.high_value_threshold.getD 25000 ∧
      ((0 ≤ (detect_fraud_indicators scenario_policy (scenario_claim 800)).fraud_score ∧
          (detect_fraud_indicators scenario_policy (scenario_claim 800)).fraud_score ≤ 1) ∧
        (0 ≤ (make_adjudication_decision scenario_policy [] (scenario_claim 800)
              w_elig {} {} {} {} w_ca w_fraud).confidence_score ∧
          (make_adjudication_decision scenario_policy [] (scenario_claim 800)
              w_elig {} {} {} {} w_ca w_fraud).confidence_score ≤ 1)) :=
  ⟨by norm_num [scenario_policy],
    c9_score_bounds_amended scenario_policy (scenario_claim 800) [] w_elig {} {} {} {}
      w_ca w_fraud (by norm_num [scenario_policy])⟩

/-! ## Claim C10 — year-to-date utilization -/

